import Mathlib

/-
Verification of the donation/crowdfunding front-end (paymentService.ts,
App.tsx, DonationCard/DonationList/useContract).

The TypeScript source is shallowly embedded: asynchronous provider calls
become explicit response functions, thrown JavaScript errors become
`Except.error` carrying the error message, React `setState` calls become
an explicit list of state updates, and each `provider.request` issued is
recorded in a trace of `RpcRequest` values.
-/

set_option maxHeartbeats 1000000

/-- Claim-level model of the status object returned by a
wallet_getCallsStatus poll: its `status` field ("PENDING", "CONFIRMED",
"FAILED", ...) and its `error` field as rendered into the template
string of the source. -/
structure CallsStatus where
  status : String
  error : String
deriving DecidableEq, Repr

/-- A paymaster service capability object, mirroring
`capabilities.paymasterService` of the wallet_sendCalls payload. -/
structure PaymasterService where
  url : String
deriving DecidableEq, Repr

/-- The `capabilities` object of the wallet_sendCalls payload. -/
structure Capabilities where
  paymasterService : PaymasterService
deriving DecidableEq, Repr

/-- One element of the `calls` array of a wallet_sendCalls payload (the
source field `to` is rendered here as `toAddr`, `to` being a Lean
keyword). -/
structure Call where
  toAddr : String
  value : String
  data : String
deriving DecidableEq, Repr

/-- The single params object passed to wallet_sendCalls (the source field
`from` is rendered here as `fromAddress`, `from` being a Lean keyword). -/
structure SendCallsParams where
  version : String
  chainId : String
  fromAddress : String
  calls : List Call
  capabilities : Capabilities
deriving DecidableEq, Repr

/-- A provider.request issued by the embedded code, tagged with its
payload; `method` recovers the method string of the source. -/
inductive RpcRequest where
  | sendCalls (p : SendCallsParams)
  | getStatus (batchId : String)
deriving DecidableEq, Repr

/-- The JSON-RPC method string of a request, exactly as the source
writes it. -/
def RpcRequest.method : RpcRequest → String
  | .sendCalls _ => "wallet_sendCalls"
  | .getStatus _ => "wallet_getCallsStatus"

deriving instance DecidableEq for Except

/-- The observable behaviour of one run of a confirmation-polling loop:
the returned status (`Except.ok`) or thrown error message
(`Except.error`), the number of wallet_getCallsStatus queries issued,
the list of setTimeout delays performed (in milliseconds), and the trace
of provider requests issued. -/
structure PollRun where
  result : Except String CallsStatus
  polls : Nat
  sleeps : List Nat
  trace : List RpcRequest
deriving DecidableEq, Repr

/-- Embedding of `getCallsStatus` (paymentService.ts): issues one
wallet_getCallsStatus request for `batchId` and returns the provider's
response (`resp`, an `Except.error` modelling a rejected promise)
together with the request issued. -/
def getCallsStatus (resp : Except String CallsStatus) (batchId : String) :
    Except String CallsStatus × List RpcRequest :=
  (resp, [RpcRequest.getStatus batchId])

/-- Embedding of the `for (let attempt = 0; ...)` loop of
`waitForBatchConfirmation`: `responses n` is the provider's response to
the n-th wallet_getCallsStatus query, the first argument of the
recursion is the current attempt index and the second the number of
attempts remaining.  A CONFIRMED status is returned, a FAILED status
throws "Batch failed: " followed by the status error, any other status
sleeps `intervalMs` and polls again, and exhausting the attempts throws
"Batch confirmation timeout". -/
def waitLoop (responses : Nat → Except String CallsStatus) (batchId : String)
    (intervalMs : Nat) : Nat → Nat → PollRun
  | _, 0 => ⟨Except.error "Batch confirmation timeout", 0, [], []⟩
  | attempt, fuel+1 =>
    match getCallsStatus (responses attempt) batchId with
    | (Except.error e, tr) => ⟨Except.error e, 1, [], tr⟩
    | (Except.ok s, tr) =>
      if s.status = "CONFIRMED" then ⟨Except.ok s, 1, [], tr⟩
      else if s.status = "FAILED" then
        ⟨Except.error ("Batch failed: " ++ s.error), 1, [], tr⟩
      else
        let r := waitLoop responses batchId intervalMs (attempt+1) fuel
        ⟨r.result, r.polls + 1, intervalMs :: r.sleeps, tr ++ r.trace⟩

/-- Source default of the maxAttempts parameter of
waitForBatchConfirmation. -/
def defaultMaxAttempts : Nat := 60

/-- Source default of the intervalMs parameter of
waitForBatchConfirmation. -/
def defaultIntervalMs : Nat := 2000

/-- Embedding of `waitForBatchConfirmation` (paymentService.ts): runs the
polling loop from attempt 0 with `maxAttempts` attempts.  The source
defaults are maxAttempts = 60 and intervalMs = 2000
(`defaultMaxAttempts`, `defaultIntervalMs`). -/
def waitForBatchConfirmation (responses : Nat → Except String CallsStatus)
    (batchId : String) (maxAttempts : Nat) (intervalMs : Nat) : PollRun :=
  waitLoop responses batchId intervalMs 0 maxAttempts

/-- Embedding of the inline confirmation loop that App.tsx repeats
verbatim inside handleCreateDonation and handleDonate:
`for (let i = 0; i < 60; i++)` polling wallet_getCallsStatus directly,
breaking with `confirmed = true` on CONFIRMED (modelled as returning the
status seen), throwing "Transaction failed: " followed by the status
error on FAILED, sleeping 2000 ms otherwise, and throwing
"Transaction confirmation timeout" when the loop ends unconfirmed. -/
def inlineLoop (responses : Nat → Except String CallsStatus)
    (batchId : String) : Nat → Nat → PollRun
  | _, 0 => ⟨Except.error "Transaction confirmation timeout", 0, [], []⟩
  | i, fuel+1 =>
    match responses i with
    | Except.error e => ⟨Except.error e, 1, [], [RpcRequest.getStatus batchId]⟩
    | Except.ok s =>
      if s.status = "CONFIRMED" then
        ⟨Except.ok s, 1, [], [RpcRequest.getStatus batchId]⟩
      else if s.status = "FAILED" then
        ⟨Except.error ("Transaction failed: " ++ s.error), 1, [],
          [RpcRequest.getStatus batchId]⟩
      else
        let r := inlineLoop responses batchId (i+1) fuel
        ⟨r.result, r.polls + 1, 2000 :: r.sleeps,
          RpcRequest.getStatus batchId :: r.trace⟩

/-- The inline loop as the handlers run it: from index 0 with the
hard-coded 60 attempts. -/
def inlineConfirmation (responses : Nat → Except String CallsStatus)
    (batchId : String) : PollRun :=
  inlineLoop responses batchId 0 60

/-- Embedding of viem numberToHex: "0x" followed by the lowercase
hexadecimal digits of the number. -/
def numberToHex (n : Nat) : String :=
  "0x" ++ String.mk (Nat.toDigits 16 n)

/-- The chain id of Base Sepolia (viem baseSepolia.id). -/
def baseSepoliaChainId : Nat := 84532

/-- The wallet_sendCalls params object that sendTransaction,
handleCreateDonation and handleDonate all build literally: version
"1.0", chainId numberToHex(baseSepolia.id), the sender address, a single
call to the contract address with value "0x0" and the encoded function
data, and paymasterService capabilities pointing at the configured
paymaster URL.  The encoded calldata (viem encodeFunctionData) is passed
in as the uninterpreted string `dataStr`. -/
def mkSendCallsParams (fromAddress contractAddress paymasterUrl dataStr : String) :
    SendCallsParams :=
  { version := "1.0"
    chainId := numberToHex baseSepoliaChainId
    fromAddress := fromAddress
    calls := [{ toAddr := contractAddress, value := "0x0", data := dataStr }]
    capabilities := { paymasterService := { url := paymasterUrl } } }

/-- Embedding of `sendTransaction` (paymentService.ts).  `providerOk`
models the truthiness of `provider && provider.request`; `respond`
models the provider's answer to a wallet_sendCalls request (an
`Except.error` being a rejected promise, which the source catch block
logs and rethrows unchanged).  Returns the result or thrown error
message together with the trace of provider requests issued. -/
def sendTransaction (providerOk : Bool)
    (respond : SendCallsParams → Except String String)
    (fromAddress contractAddress paymasterUrl dataStr : String) :
    Except String String × List RpcRequest :=
  if providerOk = false then
    (Except.error "No provider available. Please connect to a base account", [])
  else if paymasterUrl = "" then
    (Except.error "Paymaster URL is required!", [])
  else
    let req := mkSendCallsParams fromAddress contractAddress paymasterUrl dataStr
    (respond req, [RpcRequest.sendCalls req])

/-- The App component state touched by the two handlers: the error
banner, the loading flag and the refresh trigger. -/
structure AppState where
  error : String
  isLoading : Bool
  refreshTrigger : Nat
deriving DecidableEq, Repr

/-- One React setState call performed by a handler. -/
inductive StateUpdate where
  | setError (e : String)
  | setIsLoading (b : Bool)
  | incRefresh
deriving DecidableEq, Repr

/-- Apply one setState call to the App state (incRefresh is
`setRefreshTrigger ((prev) => prev + 1)`). -/
def applyUpdate (s : AppState) : StateUpdate → AppState
  | .setError e => { s with error := e }
  | .setIsLoading b => { s with isLoading := b }
  | .incRefresh => { s with refreshTrigger := s.refreshTrigger + 1 }

/-- Apply a handler's setState calls in order. -/
def applyUpdates (s : AppState) : List StateUpdate → AppState
  | [] => s
  | u :: rest => applyUpdates (applyUpdate s u) rest

/-- The observable behaviour of one handler invocation: the setState
calls it performed in order, the error message it rethrew to its caller
(if any), and the provider requests it issued. -/
structure HandlerRun where
  updates : List StateUpdate
  thrown : Option String
  trace : List RpcRequest
deriving DecidableEq, Repr

/-- Embedding of `handleCreateDonation` (App.tsx).  `connected` models
the truthiness of `provider && account`; `respond` the provider's answer
to the wallet_sendCalls request (the falsy batch id guard is modelled by
the empty string); `responses` the answers to the inline confirmation
loop's polls; `dataStr` the encodeFunctionData("createDonation", ...)
calldata.  On the unconnected path the handler sets the error banner and
returns without throwing; otherwise it clears the error, sets loading,
submits the batch, polls, increments the refresh trigger on success, and
on any thrown error records the message and rethrows, always resetting
the loading flag in the finally block. -/
def handleCreateDonation (connected : Bool)
    (respond : SendCallsParams → Except String String)
    (responses : Nat → Except String CallsStatus)
    (account contractAddress paymasterUrl dataStr : String) : HandlerRun :=
  if connected = false then
    ⟨[StateUpdate.setError "Wallet not connected"], none, []⟩
  else
    let req := mkSendCallsParams account contractAddress paymasterUrl dataStr
    match respond req with
    | Except.error e =>
        ⟨[StateUpdate.setError "", StateUpdate.setIsLoading true,
          StateUpdate.setError e, StateUpdate.setIsLoading false],
         some e, [RpcRequest.sendCalls req]⟩
    | Except.ok batchId =>
      if batchId = "" then
        ⟨[StateUpdate.setError "", StateUpdate.setIsLoading true,
          StateUpdate.setError "Failed to get batch ID",
          StateUpdate.setIsLoading false],
         some "Failed to get batch ID", [RpcRequest.sendCalls req]⟩
      else
        let run := inlineConfirmation responses batchId
        match run.result with
        | Except.ok _ =>
            ⟨[StateUpdate.setError "", StateUpdate.setIsLoading true,
              StateUpdate.incRefresh, StateUpdate.setIsLoading false],
             none, RpcRequest.sendCalls req :: run.trace⟩
        | Except.error m =>
            ⟨[StateUpdate.setError "", StateUpdate.setIsLoading true,
              StateUpdate.setError m, StateUpdate.setIsLoading false],
             some m, RpcRequest.sendCalls req :: run.trace⟩

/-- Embedding of `handleDonate` (App.tsx).  Identical to
handleCreateDonation except that the calldata encodes
donate(id, amount); the body (wallet check, state updates, submission
payload, inline confirmation loop, error handling) is textually the same
in the source. -/
def handleDonate (connected : Bool)
    (respond : SendCallsParams → Except String String)
    (responses : Nat → Except String CallsStatus)
    (account contractAddress paymasterUrl dataStr : String) : HandlerRun :=
  if connected = false then
    ⟨[StateUpdate.setError "Wallet not connected"], none, []⟩
  else
    let req := mkSendCallsParams account contractAddress paymasterUrl dataStr
    match respond req with
    | Except.error e =>
        ⟨[StateUpdate.setError "", StateUpdate.setIsLoading true,
          StateUpdate.setError e, StateUpdate.setIsLoading false],
         some e, [RpcRequest.sendCalls req]⟩
    | Except.ok batchId =>
      if batchId = "" then
        ⟨[StateUpdate.setError "", StateUpdate.setIsLoading true,
          StateUpdate.setError "Failed to get batch ID",
          StateUpdate.setIsLoading false],
         some "Failed to get batch ID", [RpcRequest.sendCalls req]⟩
      else
        let run := inlineConfirmation responses batchId
        match run.result with
        | Except.ok _ =>
            ⟨[StateUpdate.setError "", StateUpdate.setIsLoading true,
              StateUpdate.incRefresh, StateUpdate.setIsLoading false],
             none, RpcRequest.sendCalls req :: run.trace⟩
        | Except.error m =>
            ⟨[StateUpdate.setError "", StateUpdate.setIsLoading true,
              StateUpdate.setError m, StateUpdate.setIsLoading false],
             some m, RpcRequest.sendCalls req :: run.trace⟩

/-- The Donation record of useContract.ts: the struct returned by the
contract's getDonation, after the hook's BigInt conversions.  The
numeric uint256 fields are modelled as Int. -/
structure Donation where
  targetAmount : Int
  totalDonated : Int
  creator : String
  timestamp : Int
  description : String
deriving DecidableEq, Repr

/-- One operation issued on the viem public client.  The write
constructor exists only so that "performs no write request" is a
non-vacuous statement about the traces; the embedded hooks never emit
it. -/
inductive ClientOp where
  | readContract (functionName : String) (args : List Int)
  | writeContract (functionName : String) (args : List Int)
deriving DecidableEq, Repr

/-- Whether a client operation is a write. -/
def ClientOp.isWrite : ClientOp → Bool
  | .readContract _ _ => false
  | .writeContract _ _ => true

/-- Models the JavaScript BigInt(x) conversion applied by the hook to
the numeric fields.  The decoded uint256 fields are already bigint
values, on which BigInt is the identity. -/
def jsBigInt (n : Int) : Int := n

/-- Models the JavaScript Number(x) conversion applied by
getTotalDonations to the decoded bigint.  Modelled as exact; the JS
conversion is exact whenever the magnitude stays below 2^53. -/
def jsNumber (n : Int) : Int := n

/-- Embedding of useContract's `getDonation`: one readContract call of
the contract function "getDonation" with the requested id, whose decoded
result `raw` is returned with BigInt conversions on targetAmount,
totalDonated and timestamp and creator/description passed through. -/
def getDonation (raw : Donation) (id : Int) : Donation × List ClientOp :=
  ({ targetAmount := jsBigInt raw.targetAmount
     totalDonated := jsBigInt raw.totalDonated
     creator := raw.creator
     timestamp := jsBigInt raw.timestamp
     description := raw.description },
   [ClientOp.readContract "getDonation" [id]])

/-- Embedding of useContract's `getTotalDonations`: one readContract
call of the contract function "totalDonations", whose decoded result
`raw` is returned through the Number conversion. -/
def getTotalDonations (raw : Int) : Int × List ClientOp :=
  (jsNumber raw, [ClientOp.readContract "totalDonations" []])

/-- Embedding of the `for (let i = 0; i < total; i++)` fetch loop of
DonationList.loadDonations: `donationResp i` is the outcome of
`getDonation(BigInt(i))` (an `Except.error` being a thrown fetch); a
successful fetch is pushed onto the list with its id, a failing id is
logged and skipped.  First argument: current index, second: ids
remaining. -/
def fetchLoop (donationResp : Nat → Except String Donation) :
    Nat → Nat → List (Nat × Donation)
  | _, 0 => []
  | i, n+1 =>
    match donationResp i with
    | Except.ok d => (i, d) :: fetchLoop donationResp (i+1) n
    | Except.error _ => fetchLoop donationResp (i+1) n

/-- The observable behaviour of one DonationList.loadDonations run: the
ids passed to getDonation in order, the argument of setDonations if it
was reached, and the final error and isLoadingDonations states. -/
structure LoadRun where
  queried : List Nat
  stored : Option (List (Nat × Donation))
  error : String
  isLoadingDonations : Bool
deriving DecidableEq, Repr

/-- Embedding of `loadDonations` (DonationList.tsx).  `totalResp` is the
outcome of getTotalDonations (an `Except.error` being a thrown fetch,
whose message lands in the list-level error state).  On success the loop
fetches ids 0..total-1, skipping failures, and stores the reversed list;
setError("") runs at the start and isLoadingDonations is reset in the
finally block on every path. -/
def loadDonations (totalResp : Except String Nat)
    (donationResp : Nat → Except String Donation) : LoadRun :=
  match totalResp with
  | Except.error e => ⟨[], none, e, false⟩
  | Except.ok total =>
      ⟨List.range total, some (fetchLoop donationResp 0 total).reverse, "", false⟩

/-- A JavaScript number as DonationCard computes with it: a finite value
(modelled exactly as a rational), an infinity, or NaN.  The properties
proved about the card (the Math.min cap at 100, division by zero giving
Infinity, 0/0 giving NaN) are independent of IEEE-754 rounding, so the
finite case carries an exact rational. -/
inductive JsNum where
  | num (q : ℚ)
  | posInf
  | negInf
  | nan
deriving DecidableEq

/-- JavaScript division on card numbers: a finite value divided by +0 is
an infinity of its sign, 0/0 is NaN, NaN propagates. -/
def jsDiv : JsNum → JsNum → JsNum
  | .num a, .num b =>
      if b = 0 then (if a = 0 then .nan else if 0 < a then .posInf else .negInf)
      else .num (a / b)
  | .num _, .posInf => .num 0
  | .num _, .negInf => .num 0
  | .posInf, .num b => if 0 ≤ b then .posInf else .negInf
  | .negInf, .num b => if 0 ≤ b then .negInf else .posInf
  | _, _ => .nan

/-- JavaScript multiplication on card numbers: infinity times zero is
NaN, NaN propagates. -/
def jsMul : JsNum → JsNum → JsNum
  | .num a, .num b => .num (a * b)
  | .num a, .posInf => if a = 0 then .nan else if 0 < a then .posInf else .negInf
  | .posInf, .num b => if b = 0 then .nan else if 0 < b then .posInf else .negInf
  | .num a, .negInf => if a = 0 then .nan else if 0 < a then .negInf else .posInf
  | .negInf, .num b => if b = 0 then .nan else if 0 < b then .negInf else .posInf
  | .posInf, .posInf => .posInf
  | .posInf, .negInf => .negInf
  | .negInf, .posInf => .negInf
  | .negInf, .negInf => .posInf
  | _, _ => .nan

/-- JavaScript Math.min of two card numbers: NaN if either argument is
NaN. -/
def jsMin : JsNum → JsNum → JsNum
  | .nan, _ => .nan
  | _, .nan => .nan
  | .negInf, _ => .negInf
  | _, .negInf => .negInf
  | .posInf, b => b
  | a, .posInf => a
  | .num a, .num b => .num (min a b)

/-- The progress expression of DonationCard.tsx over the card's computed
totalDonated and targetAmount numbers:
Math.min((totalDonated / targetAmount) * 100, 100); the division by
targetAmount is unguarded. -/
def cardProgress (totalDonated targetAmount : JsNum) : JsNum :=
  jsMin (jsMul (jsDiv totalDonated targetAmount) (JsNum.num 100)) (JsNum.num 100)

/-- The card's targetAmount and totalDonated values computed from a
donation record: Number(field) / 1e18, with the division modelled
exactly. -/
def cardValues (d : Donation) : JsNum × JsNum :=
  (JsNum.num ((d.totalDonated : ℚ) / (10 : ℚ)^18),
   JsNum.num ((d.targetAmount : ℚ) / (10 : ℚ)^18))

/-- The progress value DonationCard renders for a donation record. -/
def progressOf (d : Donation) : JsNum :=
  cardProgress (cardValues d).1 (cardValues d).2

/-- Correspondence between a library-helper outcome and an inline-loop
outcome on the same responses: identical returned status, identical
propagated rejection, or the same failure/timeout classification with
the helper's "Batch ..." message replaced by the inline "Transaction
..." message. -/
def resultCorresponds : Except String CallsStatus → Except String CallsStatus → Prop
  | Except.ok s, Except.ok t => s = t
  | Except.error e, Except.error f =>
      e = f ∨ (∃ m, e = "Batch failed: " ++ m ∧ f = "Transaction failed: " ++ m) ∨
      (e = "Batch confirmation timeout" ∧ f = "Transaction confirmation timeout")
  | _, _ => False

/-- A wallet_sendCalls payload that requests gas sponsorship: paymaster
capabilities pointing at the configured URL, version "1.0", the Base
Sepolia chain id in hex, and exactly one call targeting the contract
address with value "0x0". -/
def sponsoredRequest (contractAddress paymasterUrl : String)
    (p : SendCallsParams) : Prop :=
  p.capabilities.paymasterService.url = paymasterUrl ∧
  p.version = "1.0" ∧
  p.chainId = numberToHex baseSepoliaChainId ∧
  ∃ d, p.calls = [⟨contractAddress, "0x0", d⟩]

/-- A request whose method is one of the two remote-procedure calls of
the submission/confirmation flow. -/
def allowedMethod (r : RpcRequest) : Prop :=
  r.method = "wallet_sendCalls" ∨ r.method = "wallet_getCallsStatus"

/-- The flag-management contract of a connected handler run against a
starting App state: the first two setState calls clear the error banner
and set the loading flag, the final loading flag is false on every exit
path, on success the refresh trigger is incremented by exactly one with
the error banner left clear, and on a rethrown error the banner holds
the thrown message and the refresh trigger is unchanged. -/
def handlerFlagSpec (s : AppState) (run : HandlerRun) : Prop :=
  run.updates.take 2 = [StateUpdate.setError "", StateUpdate.setIsLoading true] ∧
  (applyUpdates s run.updates).isLoading = false ∧
  (run.thrown = none →
      (applyUpdates s run.updates).refreshTrigger = s.refreshTrigger + 1 ∧
      (applyUpdates s run.updates).error = "") ∧
  (∀ m, run.thrown = some m →
      (applyUpdates s run.updates).error = m ∧
      (applyUpdates s run.updates).refreshTrigger = s.refreshTrigger)

/-- A poll response that neither confirms nor fails: a resolved status
object whose status field is neither CONFIRMED nor FAILED (for instance
PENDING). -/
def otherStatus (r : Except String CallsStatus) : Prop :=
  ∃ t, r = Except.ok t ∧ t.status ≠ "CONFIRMED" ∧ t.status ≠ "FAILED"

lemma waitLoop_zero (responses : Nat → Except String CallsStatus)
    (b : String) (iv i : Nat) :
    waitLoop responses b iv i 0
      = ⟨Except.error "Batch confirmation timeout", 0, [], []⟩ := rfl

lemma waitLoop_reject (responses : Nat → Except String CallsStatus)
    (b : String) (iv i fuel : Nat) (e : String)
    (h : responses i = Except.error e) :
    waitLoop responses b iv i (fuel+1)
      = ⟨Except.error e, 1, [], [RpcRequest.getStatus b]⟩ := by
  simp [waitLoop, getCallsStatus, h]

lemma waitLoop_confirmed (responses : Nat → Except String CallsStatus)
    (b : String) (iv i fuel : Nat) (s : CallsStatus)
    (h : responses i = Except.ok s) (hs : s.status = "CONFIRMED") :
    waitLoop responses b iv i (fuel+1)
      = ⟨Except.ok s, 1, [], [RpcRequest.getStatus b]⟩ := by
  simp [waitLoop, getCallsStatus, h, hs]

lemma waitLoop_failed (responses : Nat → Except String CallsStatus)
    (b : String) (iv i fuel : Nat) (s : CallsStatus)
    (h : responses i = Except.ok s) (hs : s.status = "FAILED") :
    waitLoop responses b iv i (fuel+1)
      = ⟨Except.error ("Batch failed: " ++ s.error), 1, [],
          [RpcRequest.getStatus b]⟩ := by
  simp [waitLoop, getCallsStatus, h, hs]

lemma waitLoop_step (responses : Nat → Except String CallsStatus)
    (b : String) (iv i fuel : Nat) (s : CallsStatus)
    (h : responses i = Except.ok s) (h1 : s.status ≠ "CONFIRMED")
    (h2 : s.status ≠ "FAILED") :
    waitLoop responses b iv i (fuel+1)
      = ⟨(waitLoop responses b iv (i+1) fuel).result,
         (waitLoop responses b iv (i+1) fuel).polls + 1,
         iv :: (waitLoop responses b iv (i+1) fuel).sleeps,
         RpcRequest.getStatus b :: (waitLoop responses b iv (i+1) fuel).trace⟩ := by
  simp [waitLoop, getCallsStatus, h, h1, h2]

lemma waitLoop_skip (responses : Nat → Except String CallsStatus)
    (b : String) (iv : Nat) (k : Nat) :
    ∀ i fuel, k ≤ fuel → (∀ j, j < k → otherStatus (responses (i + j))) →
    waitLoop responses b iv i fuel
      = ⟨(waitLoop responses b iv (i + k) (fuel - k)).result,
         (waitLoop responses b iv (i + k) (fuel - k)).polls + k,
         List.replicate k iv ++ (waitLoop responses b iv (i + k) (fuel - k)).sleeps,
         List.replicate k (RpcRequest.getStatus b) ++
           (waitLoop responses b iv (i + k) (fuel - k)).trace⟩ := by
  induction k with
  | zero => intro i fuel _ _; simp
  | succ k ih =>
    intro i fuel hk h
    obtain ⟨m, rfl⟩ : ∃ m, fuel = m + 1 := ⟨fuel - 1, by omega⟩
    obtain ⟨t, ht, h1, h2⟩ := h 0 (Nat.succ_pos k)
    rw [waitLoop_step responses b iv i m t (by simpa using ht) h1 h2]
    have hrest : ∀ j, j < k → otherStatus (responses (i + 1 + j)) := by
      intro j hj
      have := h (j + 1) (by omega)
      simpa [Nat.add_assoc, Nat.add_comm 1 j] using this
    rw [ih (i + 1) m (by omega) hrest]
    have e1 : i + 1 + k = i + (k + 1) := by omega
    have e2 : m - k = m + 1 - (k + 1) := by omega
    simp [e1, ← e2, List.replicate_succ]
    omega

lemma waitLoop_invariants (responses : Nat → Except String CallsStatus)
    (b : String) (iv : Nat) :
    ∀ fuel i,
      (waitLoop responses b iv i fuel).polls ≤ fuel ∧
      (waitLoop responses b iv i fuel).sleeps.length
        ≤ (waitLoop responses b iv i fuel).polls ∧
      (∀ d ∈ (waitLoop responses b iv i fuel).sleeps, d = iv) ∧
      (waitLoop responses b iv i fuel).trace
        = List.replicate (waitLoop responses b iv i fuel).polls
            (RpcRequest.getStatus b) := by
  intro fuel
  induction fuel with
  | zero => intro i; simp [waitLoop_zero]
  | succ fuel ih =>
    intro i
    rcases hr : responses i with e | s
    · rw [waitLoop_reject responses b iv i fuel e hr]
      simp
    · by_cases hc : s.status = "CONFIRMED"
      · rw [waitLoop_confirmed responses b iv i fuel s hr hc]
        simp
      · by_cases hf : s.status = "FAILED"
        · rw [waitLoop_failed responses b iv i fuel s hr hf]
          simp
        · rw [waitLoop_step responses b iv i fuel s hr hc hf]
          obtain ⟨hp, hl, hd, ht⟩ := ih (i + 1)
          refine ⟨by simpa using hp, by simpa using hl, ?d, ?t⟩
          · intro d hd2
            rcases List.mem_cons.mp hd2 with h | h
            · exact h
            · exact hd d h
          · simp [ht, List.replicate_succ]

/-- Claim C1: for every provider and batch id, waitForBatchConfirmation
returns the status object as soon as a poll reports status CONFIRMED,
throws an error carrying the reported error ("Batch failed: " followed
by the status error) as soon as a poll reports status FAILED, and throws
the "Batch confirmation timeout" error if maxAttempts polls complete
with neither status; any other reported status (e.g. PENDING) causes it
to keep polling. -/
theorem waitForBatchConfirmation_outcomes
    (responses : Nat → Except String CallsStatus) (batchId : String)
    (maxAttempts intervalMs : Nat) :
    (∀ k s, k < maxAttempts → responses k = Except.ok s →
        s.status = "CONFIRMED" → (∀ j, j < k → otherStatus (responses j)) →
        (waitForBatchConfirmation responses batchId maxAttempts intervalMs).result
            = Except.ok s ∧
        (waitForBatchConfirmation responses batchId maxAttempts intervalMs).polls
            = k + 1) ∧
    (∀ k s, k < maxAttempts → responses k = Except.ok s →
        s.status = "FAILED" → (∀ j, j < k → otherStatus (responses j)) →
        (waitForBatchConfirmation responses batchId maxAttempts intervalMs).result
            = Except.error ("Batch failed: " ++ s.error) ∧
        (waitForBatchConfirmation responses batchId maxAttempts intervalMs).polls
            = k + 1) ∧
    ((∀ j, j < maxAttempts → otherStatus (responses j)) →
        (waitForBatchConfirmation responses batchId maxAttempts intervalMs).result
            = Except.error "Batch confirmation timeout" ∧
        (waitForBatchConfirmation responses batchId maxAttempts intervalMs).polls
            = maxAttempts) := by
  refine ⟨?c, ?f, ?t⟩
  case c =>
    intro k s hk hr hs hpre
    have hskip := waitLoop_skip responses batchId intervalMs k 0 maxAttempts
      (by omega) (by simpa using hpre)
    obtain ⟨m, hm⟩ : ∃ m, maxAttempts - k = m + 1 := ⟨maxAttempts - k - 1, by omega⟩
    rw [hm, waitLoop_confirmed responses batchId intervalMs (0 + k) m s
      (by simpa using hr) hs] at hskip
    unfold waitForBatchConfirmation
    rw [hskip]
    exact ⟨rfl, by simp [Nat.add_comm]⟩
  case f =>
    intro k s hk hr hs hpre
    have hskip := waitLoop_skip responses batchId intervalMs k 0 maxAttempts
      (by omega) (by simpa using hpre)
    obtain ⟨m, hm⟩ : ∃ m, maxAttempts - k = m + 1 := ⟨maxAttempts - k - 1, by omega⟩
    rw [hm, waitLoop_failed responses batchId intervalMs (0 + k) m s
      (by simpa using hr) hs] at hskip
    unfold waitForBatchConfirmation
    rw [hskip]
    exact ⟨rfl, by simp [Nat.add_comm]⟩
  case t =>
    intro hpre
    have hskip := waitLoop_skip responses batchId intervalMs maxAttempts 0 maxAttempts
      (le_refl maxAttempts) (by simpa using hpre)
    rw [Nat.sub_self, waitLoop_zero] at hskip
    unfold waitForBatchConfirmation
    rw [hskip]
    exact ⟨rfl, by simp⟩

/-- Witness for C1: with two PENDING responses followed by CONFIRMED,
the helper returns the confirmed status after exactly three polls. -/
theorem waitForBatchConfirmation_outcomes_witness :
    (waitForBatchConfirmation
        (fun j => if j < 2 then Except.ok ⟨"PENDING", ""⟩
                  else Except.ok ⟨"CONFIRMED", ""⟩) "b" 60 2000).result
        = Except.ok ⟨"CONFIRMED", ""⟩ ∧
    (waitForBatchConfirmation
        (fun j => if j < 2 then Except.ok ⟨"PENDING", ""⟩
                  else Except.ok ⟨"CONFIRMED", ""⟩) "b" 60 2000).polls = 3 := by
  refine (waitForBatchConfirmation_outcomes
      (fun j => if j < 2 then Except.ok ⟨"PENDING", ""⟩
                else Except.ok ⟨"CONFIRMED", ""⟩) "b" 60 2000).1
    2 ⟨"CONFIRMED", ""⟩ (by decide) (by decide) rfl ?pre
  intro j hj
  exact ⟨⟨"PENDING", ""⟩, by simp [hj], by decide, by decide⟩

/-- Claim C2: waitForBatchConfirmation is a single bounded polling loop:
it issues at most maxAttempts wallet_getCallsStatus queries (every trace
entry being such a query), every setTimeout wait is exactly intervalMs
with at most maxAttempts waits, it always terminates by returning or
throwing, with maxAttempts = 0 it throws the timeout error without
issuing any query, and the source defaults are maxAttempts = 60 and
intervalMs = 2000. -/
theorem waitForBatchConfirmation_bounded
    (responses : Nat → Except String CallsStatus) (batchId : String)
    (maxAttempts intervalMs : Nat) :
    (waitForBatchConfirmation responses batchId maxAttempts intervalMs).polls
        ≤ maxAttempts ∧
    (waitForBatchConfirmation responses batchId maxAttempts intervalMs).trace
        = List.replicate
            (waitForBatchConfirmation responses batchId maxAttempts intervalMs).polls
            (RpcRequest.getStatus batchId) ∧
    (∀ d ∈ (waitForBatchConfirmation responses batchId maxAttempts intervalMs).sleeps,
        d = intervalMs) ∧
    (waitForBatchConfirmation responses batchId maxAttempts intervalMs).sleeps.length
        ≤ maxAttempts ∧
    ((∃ s, (waitForBatchConfirmation responses batchId maxAttempts intervalMs).result
          = Except.ok s) ∨
      (∃ e, (waitForBatchConfirmation responses batchId maxAttempts intervalMs).result
          = Except.error e)) ∧
    waitForBatchConfirmation responses batchId 0 intervalMs
        = ⟨Except.error "Batch confirmation timeout", 0, [], []⟩ ∧
    defaultMaxAttempts = 60 ∧ defaultIntervalMs = 2000 := by
  obtain ⟨hp, hl, hd, ht⟩ := waitLoop_invariants responses batchId intervalMs maxAttempts 0
  refine ⟨hp, ht, hd, le_trans hl hp, ?res, rfl, rfl, rfl⟩
  rcases h : (waitForBatchConfirmation responses batchId maxAttempts intervalMs).result
    with e | s
  · exact Or.inr ⟨e, rfl⟩
  · exact Or.inl ⟨s, rfl⟩

/-- Witness for C2: a concrete run of three attempts at interval 5 polls
at most three times and its trace is three status queries. -/
theorem waitForBatchConfirmation_bounded_witness :
    (waitForBatchConfirmation (fun _ => Except.ok ⟨"PENDING", ""⟩) "b" 3 5).polls
        ≤ 3 ∧
    (waitForBatchConfirmation (fun _ => Except.ok ⟨"PENDING", ""⟩) "b" 3 5).trace
        = List.replicate 3 (RpcRequest.getStatus "b") := by
  refine ⟨(waitForBatchConfirmation_bounded (fun _ => Except.ok ⟨"PENDING", ""⟩)
      "b" 3 5).1, ?tr⟩
  have h := (waitForBatchConfirmation_bounded (fun _ => Except.ok ⟨"PENDING", ""⟩)
      "b" 3 5).2.1
  simpa using h

lemma inlineLoop_reject (responses : Nat → Except String CallsStatus)
    (b : String) (i fuel : Nat) (e : String)
    (h : responses i = Except.error e) :
    inlineLoop responses b i (fuel+1)
      = ⟨Except.error e, 1, [], [RpcRequest.getStatus b]⟩ := by
  simp [inlineLoop, h]

lemma inlineLoop_confirmed (responses : Nat → Except String CallsStatus)
    (b : String) (i fuel : Nat) (s : CallsStatus)
    (h : responses i = Except.ok s) (hs : s.status = "CONFIRMED") :
    inlineLoop responses b i (fuel+1)
      = ⟨Except.ok s, 1, [], [RpcRequest.getStatus b]⟩ := by
  simp [inlineLoop, h, hs]

lemma inlineLoop_failed (responses : Nat → Except String CallsStatus)
    (b : String) (i fuel : Nat) (s : CallsStatus)
    (h : responses i = Except.ok s) (hs : s.status = "FAILED") :
    inlineLoop responses b i (fuel+1)
      = ⟨Except.error ("Transaction failed: " ++ s.error), 1, [],
          [RpcRequest.getStatus b]⟩ := by
  simp [inlineLoop, h, hs]

lemma inlineLoop_step (responses : Nat → Except String CallsStatus)
    (b : String) (i fuel : Nat) (s : CallsStatus)
    (h : responses i = Except.ok s) (h1 : s.status ≠ "CONFIRMED")
    (h2 : s.status ≠ "FAILED") :
    inlineLoop responses b i (fuel+1)
      = ⟨(inlineLoop responses b (i+1) fuel).result,
         (inlineLoop responses b (i+1) fuel).polls + 1,
         2000 :: (inlineLoop responses b (i+1) fuel).sleeps,
         RpcRequest.getStatus b :: (inlineLoop responses b (i+1) fuel).trace⟩ := by
  simp [inlineLoop, h, h1, h2]

lemma inlineLoop_corresponds (responses : Nat → Except String CallsStatus)
    (b : String) :
    ∀ fuel i,
      (inlineLoop responses b i fuel).polls
          = (waitLoop responses b 2000 i fuel).polls ∧
      (inlineLoop responses b i fuel).sleeps
          = (waitLoop responses b 2000 i fuel).sleeps ∧
      (inlineLoop responses b i fuel).trace
          = (waitLoop responses b 2000 i fuel).trace ∧
      resultCorresponds (waitLoop responses b 2000 i fuel).result
        (inlineLoop responses b i fuel).result := by
  intro fuel
  induction fuel with
  | zero =>
    intro i
    refine ⟨rfl, rfl, rfl, ?_⟩
    exact Or.inr (Or.inr ⟨rfl, rfl⟩)
  | succ fuel ih =>
    intro i
    rcases hr : responses i with e | s
    · rw [waitLoop_reject responses b 2000 i fuel e hr,
        inlineLoop_reject responses b i fuel e hr]
      exact ⟨rfl, rfl, rfl, Or.inl rfl⟩
    · by_cases hc : s.status = "CONFIRMED"
      · rw [waitLoop_confirmed responses b 2000 i fuel s hr hc,
          inlineLoop_confirmed responses b i fuel s hr hc]
        exact ⟨rfl, rfl, rfl, rfl⟩
      · by_cases hf : s.status = "FAILED"
        · rw [waitLoop_failed responses b 2000 i fuel s hr hf,
            inlineLoop_failed responses b i fuel s hr hf]
          exact ⟨rfl, rfl, rfl, Or.inr (Or.inl ⟨s.error, rfl, rfl⟩)⟩
        · rw [waitLoop_step responses b 2000 i fuel s hr hc hf,
            inlineLoop_step responses b i fuel s hr hc hf]
          obtain ⟨hp, hs2, ht, hres⟩ := ih (i + 1)
          exact ⟨by simp [hp], by simp [hs2], by simp [ht], hres⟩

/-- Claim C3 (amended): for every identical sequence of provider
responses, the inline confirmation loops of handleCreateDonation and
handleDonate poll exactly like waitForBatchConfirmation with
maxAttempts = 60 and intervalMs = 2000 — the same number of polls, the
same sleeps, the same status queries, and the same confirmed result —
and they agree on the failure/timeout classification, but not on the
thrown error values: the helper throws "Batch failed: ..." and
"Batch confirmation timeout" where the inline loops throw
"Transaction failed: ..." and "Transaction confirmation timeout"; the
two inline handlers are identical to each other. -/
theorem inline_loops_match_helper (responses : Nat → Except String CallsStatus)
    (batchId : String) :
    (inlineConfirmation responses batchId).polls
        = (waitForBatchConfirmation responses batchId 60 2000).polls ∧
    (inlineConfirmation responses batchId).sleeps
        = (waitForBatchConfirmation responses batchId 60 2000).sleeps ∧
    (inlineConfirmation responses batchId).trace
        = (waitForBatchConfirmation responses batchId 60 2000).trace ∧
    resultCorresponds (waitForBatchConfirmation responses batchId 60 2000).result
        (inlineConfirmation responses batchId).result ∧
    (∀ connected respond rs account contractAddress paymasterUrl dataStr,
        handleDonate connected respond rs account contractAddress paymasterUrl dataStr
          = handleCreateDonation connected respond rs account contractAddress
              paymasterUrl dataStr) := by
  obtain ⟨hp, hs, ht, hres⟩ := inlineLoop_corresponds responses batchId 60 0
  exact ⟨hp, hs, ht, hres, fun _ _ _ _ _ _ _ => rfl⟩

/-- Counterexample for C3 as stated: on a provider whose first poll
reports FAILED with error "boom", the library helper raises
"Batch failed: boom" while the inline loops raise
"Transaction failed: boom", so the error values raised are not the
same. -/
theorem inline_loops_error_values_differ :
    (waitForBatchConfirmation (fun _ => Except.ok ⟨"FAILED", "boom"⟩) "b" 60 2000).result
        = Except.error "Batch failed: boom" ∧
    (inlineConfirmation (fun _ => Except.ok ⟨"FAILED", "boom"⟩) "b").result
        = Except.error "Transaction failed: boom" ∧
    (waitForBatchConfirmation (fun _ => Except.ok ⟨"FAILED", "boom"⟩) "b" 60 2000).result
        ≠ (inlineConfirmation (fun _ => Except.ok ⟨"FAILED", "boom"⟩) "b").result := by
  exact ⟨by decide, by decide, by decide⟩

lemma mkSendCallsParams_sponsored (a c u d : String) :
    sponsoredRequest c u (mkSendCallsParams a c u d) :=
  ⟨rfl, rfl, rfl, d, rfl⟩

lemma sendCalls_not_mem_replicate (p : SendCallsParams) (b : String) (n : Nat) :
    RpcRequest.sendCalls p ∉ List.replicate n (RpcRequest.getStatus b) := by
  intro h
  have := List.eq_of_mem_replicate h
  simp at this

lemma sendTransaction_cases (providerOk : Bool)
    (respond : SendCallsParams → Except String String)
    (fromAddress contractAddress paymasterUrl dataStr : String) :
    (providerOk = false →
      sendTransaction providerOk respond fromAddress contractAddress paymasterUrl dataStr
        = (Except.error "No provider available. Please connect to a base account", [])) ∧
    (providerOk = true → paymasterUrl = "" →
      sendTransaction providerOk respond fromAddress contractAddress paymasterUrl dataStr
        = (Except.error "Paymaster URL is required!", [])) ∧
    (providerOk = true → paymasterUrl ≠ "" →
      sendTransaction providerOk respond fromAddress contractAddress paymasterUrl dataStr
        = (respond (mkSendCallsParams fromAddress contractAddress paymasterUrl dataStr),
           [RpcRequest.sendCalls
              (mkSendCallsParams fromAddress contractAddress paymasterUrl dataStr)])) := by
  refine ⟨?a, ?b, ?c⟩
  case a => intro h; simp [sendTransaction, h]
  case b => intro h1 h2; simp [sendTransaction, h1, h2]
  case c => intro h1 h2; simp [sendTransaction, h1, h2]

lemma inlineConfirmation_trace (responses : Nat → Except String CallsStatus)
    (b : String) :
    (inlineConfirmation responses b).trace
      = List.replicate (inlineConfirmation responses b).polls
          (RpcRequest.getStatus b) := by
  obtain ⟨hp, _, ht, _⟩ := inlineLoop_corresponds responses b 60 0
  obtain ⟨_, _, _, hw⟩ := waitLoop_invariants responses b 2000 60 0
  unfold inlineConfirmation
  rw [ht, hw, hp]

lemma handleCreateDonation_trace (connected : Bool)
    (respond : SendCallsParams → Except String String)
    (responses : Nat → Except String CallsStatus)
    (account contractAddress paymasterUrl dataStr : String) :
    (handleCreateDonation connected respond responses account contractAddress
        paymasterUrl dataStr).trace = [] ∨
    (∃ b n, (handleCreateDonation connected respond responses account contractAddress
        paymasterUrl dataStr).trace
      = RpcRequest.sendCalls (mkSendCallsParams account contractAddress paymasterUrl dataStr)
          :: List.replicate n (RpcRequest.getStatus b)) := by
  by_cases hcn : connected = false
  · left
    simp [handleCreateDonation, hcn]
  · right
    rcases hresp : respond (mkSendCallsParams account contractAddress paymasterUrl dataStr)
      with e | batchId
    · exact ⟨"", 0, by simp [handleCreateDonation, hcn, hresp]⟩
    · by_cases hb : batchId = ""
      · exact ⟨"", 0, by simp [handleCreateDonation, hcn, hresp, hb]⟩
      · rcases hres : (inlineConfirmation responses batchId).result with e2 | s
        · refine ⟨batchId, (inlineConfirmation responses batchId).polls, ?_⟩
          simp [handleCreateDonation, hcn, hresp, hb, hres]
          exact inlineConfirmation_trace responses batchId
        · refine ⟨batchId, (inlineConfirmation responses batchId).polls, ?_⟩
          simp [handleCreateDonation, hcn, hresp, hb, hres]
          exact inlineConfirmation_trace responses batchId

lemma handleDonate_eq_handleCreateDonation (connected : Bool)
    (respond : SendCallsParams → Except String String)
    (responses : Nat → Except String CallsStatus)
    (account contractAddress paymasterUrl dataStr : String) :
    handleDonate connected respond responses account contractAddress paymasterUrl dataStr
      = handleCreateDonation connected respond responses account contractAddress
          paymasterUrl dataStr := rfl

/-- Claim C4: every transaction submission — sendTransaction as well as
the inline submissions of handleCreateDonation and handleDonate — issues
a wallet_sendCalls request whose capabilities.paymasterService.url is
the configured paymaster URL, with version "1.0", chainId the Base
Sepolia chain id in hex (0x14a34), value "0x0", and exactly one call
targeting the contract address; gas sponsorship is thus requested on
every submission. -/
theorem submissions_request_sponsorship (providerOk connected : Bool)
    (respond : SendCallsParams → Except String String)
    (responses : Nat → Except String CallsStatus)
    (fromAddress account contractAddress paymasterUrl dataC dataD dataT : String) :
    (∀ p, RpcRequest.sendCalls p
        ∈ (sendTransaction providerOk respond fromAddress contractAddress
            paymasterUrl dataT).2 →
        sponsoredRequest contractAddress paymasterUrl p) ∧
    (∀ p, RpcRequest.sendCalls p
        ∈ (handleCreateDonation connected respond responses account contractAddress
            paymasterUrl dataC).trace →
        sponsoredRequest contractAddress paymasterUrl p) ∧
    (∀ p, RpcRequest.sendCalls p
        ∈ (handleDonate connected respond responses account contractAddress
            paymasterUrl dataD).trace →
        sponsoredRequest contractAddress paymasterUrl p) ∧
    numberToHex baseSepoliaChainId = "0x14a34" := by
  have hcase := sendTransaction_cases providerOk respond fromAddress contractAddress
    paymasterUrl dataT
  refine ⟨?st, ?hc, ?hd, by decide⟩
  case st =>
    intro p hp
    by_cases h1 : providerOk = false
    · rw [hcase.1 h1] at hp
      simp at hp
    · have h1t : providerOk = true := by revert h1; cases providerOk <;> simp
      by_cases h2 : paymasterUrl = ""
      · rw [hcase.2.1 h1t h2] at hp
        simp at hp
      · rw [hcase.2.2 h1t h2] at hp
        simp only [List.mem_singleton, RpcRequest.sendCalls.injEq] at hp
        rw [hp]
        exact mkSendCallsParams_sponsored fromAddress contractAddress paymasterUrl dataT
  case hc =>
    intro p hp
    rcases handleCreateDonation_trace connected respond responses account contractAddress
        paymasterUrl dataC with h | ⟨b2, n, h⟩
    · rw [h] at hp
      simp at hp
    · rw [h] at hp
      rcases List.mem_cons.mp hp with he | htail
      · have hpe : p = mkSendCallsParams account contractAddress paymasterUrl dataC := by
          simpa using he
        rw [hpe]
        exact mkSendCallsParams_sponsored account contractAddress paymasterUrl dataC
      · exact absurd htail (sendCalls_not_mem_replicate p b2 n)
  case hd =>
    intro p hp
    rw [handleDonate_eq_handleCreateDonation] at hp
    rcases handleCreateDonation_trace connected respond responses account contractAddress
        paymasterUrl dataD with h | ⟨b2, n, h⟩
    · rw [h] at hp
      simp at hp
    · rw [h] at hp
      rcases List.mem_cons.mp hp with he | htail
      · have hpe : p = mkSendCallsParams account contractAddress paymasterUrl dataD := by
          simpa using he
        rw [hpe]
        exact mkSendCallsParams_sponsored account contractAddress paymasterUrl dataD
      · exact absurd htail (sendCalls_not_mem_replicate p b2 n)

/-- Witness for C4: the request a concrete successful sendTransaction
issues carries the paymaster URL, version 1.0, the hex chain id and the
single sponsored call. -/
theorem submissions_request_sponsorship_witness :
    sponsoredRequest "0xc" "https://pm" (mkSendCallsParams "0xf" "0xc" "https://pm" "0xdata") := by
  refine (submissions_request_sponsorship true true (fun _ => Except.ok "0xbatch")
      (fun _ => Except.ok ⟨"CONFIRMED", ""⟩) "0xf" "0xa" "0xc" "https://pm"
      "d1" "d2" "0xdata").1 (mkSendCallsParams "0xf" "0xc" "https://pm" "0xdata") ?mem
  simp [sendTransaction]

lemma allowedMethod_all (r : RpcRequest) : allowedMethod r := by
  cases r with
  | sendCalls p => exact Or.inl rfl
  | getStatus b => exact Or.inr rfl

/-- Claim C5: the transaction submission/confirmation flow never invokes
any provider RPC method other than wallet_sendCalls and
wallet_getCallsStatus — every provider request recorded in the traces of
sendTransaction, getCallsStatus, waitForBatchConfirmation,
handleCreateDonation and handleDonate has one of those two method
names. -/
theorem flow_uses_only_two_rpc_methods (providerOk connected : Bool)
    (respond : SendCallsParams → Except String String)
    (responses : Nat → Except String CallsStatus)
    (statusResp : Except String CallsStatus)
    (batchId fromAddress account contractAddress paymasterUrl dataStr : String)
    (maxAttempts intervalMs : Nat) :
    (∀ r ∈ (sendTransaction providerOk respond fromAddress contractAddress
        paymasterUrl dataStr).2, allowedMethod r) ∧
    (∀ r ∈ (getCallsStatus statusResp batchId).2, allowedMethod r) ∧
    (∀ r ∈ (waitForBatchConfirmation responses batchId maxAttempts intervalMs).trace,
        allowedMethod r) ∧
    (∀ r ∈ (handleCreateDonation connected respond responses account contractAddress
        paymasterUrl dataStr).trace, allowedMethod r) ∧
    (∀ r ∈ (handleDonate connected respond responses account contractAddress
        paymasterUrl dataStr).trace, allowedMethod r) :=
  ⟨fun r _ => allowedMethod_all r, fun r _ => allowedMethod_all r,
   fun r _ => allowedMethod_all r, fun r _ => allowedMethod_all r,
   fun r _ => allowedMethod_all r⟩

/-- Witness for C5: the one request issued by a concrete getCallsStatus
call has an allowed method name. -/
theorem flow_uses_only_two_rpc_methods_witness :
    allowedMethod (RpcRequest.getStatus "0xbatch") := by
  refine (flow_uses_only_two_rpc_methods true true (fun _ => Except.ok "0xbatch")
      (fun _ => Except.ok ⟨"CONFIRMED", ""⟩) (Except.ok ⟨"PENDING", ""⟩)
      "0xbatch" "0xf" "0xa" "0xc" "https://pm" "0xdata" 60 2000).2.1
    (RpcRequest.getStatus "0xbatch") ?mem
  simp [getCallsStatus]

/-- Claim C8: sendTransaction raises exactly when the provider is
unavailable (error "No provider available. Please connect to a base
account"), when the paymaster URL is empty (error "Paymaster URL is
required!"), or when the provider's wallet_sendCalls request itself
rejects; in every other case it returns the provider's result
unchanged, and the validation happens before any request is issued, so
no wallet_sendCalls is sent when validation fails. -/
theorem sendTransaction_raises_exactly (providerOk : Bool)
    (respond : SendCallsParams → Except String String)
    (fromAddress contractAddress paymasterUrl dataStr : String) :
    (providerOk = false →
      sendTransaction providerOk respond fromAddress contractAddress paymasterUrl dataStr
        = (Except.error "No provider available. Please connect to a base account", [])) ∧
    (providerOk = true → paymasterUrl = "" →
      sendTransaction providerOk respond fromAddress contractAddress paymasterUrl dataStr
        = (Except.error "Paymaster URL is required!", [])) ∧
    (providerOk = true → paymasterUrl ≠ "" →
      sendTransaction providerOk respond fromAddress contractAddress paymasterUrl dataStr
        = (respond (mkSendCallsParams fromAddress contractAddress paymasterUrl dataStr),
           [RpcRequest.sendCalls
              (mkSendCallsParams fromAddress contractAddress paymasterUrl dataStr)])) :=
  sendTransaction_cases providerOk respond fromAddress contractAddress paymasterUrl dataStr

/-- Witness for C8: with a connected provider, a nonempty paymaster URL
and a provider that resolves with a batch id, sendTransaction returns
that batch id unchanged after issuing exactly one wallet_sendCalls
request. -/
theorem sendTransaction_raises_exactly_witness :
    sendTransaction true (fun _ => Except.ok "0xbatch") "0xf" "0xc" "https://pm" "0xdata"
      = (Except.ok "0xbatch",
         [RpcRequest.sendCalls (mkSendCallsParams "0xf" "0xc" "https://pm" "0xdata")]) := by
  exact (sendTransaction_raises_exactly true (fun _ => Except.ok "0xbatch")
      "0xf" "0xc" "https://pm" "0xdata").2.2 rfl (by decide)

lemma handleCreateDonation_flags (s : AppState)
    (respond : SendCallsParams → Except String String)
    (responses : Nat → Except String CallsStatus)
    (account contractAddress paymasterUrl dataStr : String) :
    handlerFlagSpec s (handleCreateDonation true respond responses account
      contractAddress paymasterUrl dataStr) := by
  unfold handlerFlagSpec
  rcases hresp : respond (mkSendCallsParams account contractAddress paymasterUrl dataStr)
    with e | batchId
  · refine ⟨?_, ?_, ?_, ?_⟩ <;>
      simp [handleCreateDonation, hresp, applyUpdates, applyUpdate]
  · by_cases hb : batchId = ""
    · refine ⟨?_, ?_, ?_, ?_⟩ <;>
        simp [handleCreateDonation, hresp, hb, applyUpdates, applyUpdate]
    · rcases hres : (inlineConfirmation responses batchId).result with e2 | st
      · refine ⟨?_, ?_, ?_, ?_⟩ <;>
          simp [handleCreateDonation, hresp, hb, hres, applyUpdates, applyUpdate]
      · refine ⟨?_, ?_, ?_, ?_⟩ <;>
          simp [handleCreateDonation, hresp, hb, hres, applyUpdates, applyUpdate]

/-- Claim C6: once past the connected-wallet check, handleCreateDonation
and handleDonate clear the error state and set isLoading true as their
first two state updates; on every exit path the final isLoading is
false; on success the refresh trigger is incremented by exactly one with
the error state clear, and on failure the error state holds the failure
message, the error is rethrown to the caller, and the refresh trigger is
unchanged. -/
theorem handlers_manage_flags (s : AppState)
    (respond : SendCallsParams → Except String String)
    (responses : Nat → Except String CallsStatus)
    (account contractAddress paymasterUrl dataC dataD : String) :
    handlerFlagSpec s (handleCreateDonation true respond responses account
        contractAddress paymasterUrl dataC) ∧
    handlerFlagSpec s (handleDonate true respond responses account
        contractAddress paymasterUrl dataD) := by
  refine ⟨handleCreateDonation_flags s respond responses account contractAddress
      paymasterUrl dataC, ?_⟩
  rw [handleDonate_eq_handleCreateDonation]
  exact handleCreateDonation_flags s respond responses account contractAddress
    paymasterUrl dataD

/-- Witness for C6: a concrete successful createDonation run starting at
refreshTrigger 5 ends with refreshTrigger 6. -/
theorem handlers_manage_flags_witness :
    (applyUpdates ⟨"old", false, 5⟩
        (handleCreateDonation true (fun _ => Except.ok "0xb")
          (fun _ => Except.ok ⟨"CONFIRMED", ""⟩) "0xa" "0xc" "https://pm"
          "0xd").updates).refreshTrigger = 6 := by
  have h := ((handlers_manage_flags ⟨"old", false, 5⟩ (fun _ => Except.ok "0xb")
      (fun _ => Except.ok ⟨"CONFIRMED", ""⟩) "0xa" "0xc" "https://pm"
      "0xd" "0xd2").1.2.2.1 (by decide)).1
  simpa using h

/-- Claim C7: the contract read hooks are pass-throughs over the
on-chain read API — getDonation returns the contract's result with the
numeric fields through the BigInt conversion and creator/description
unchanged via a single readContract call, getTotalDonations returns the
contract's totalDonations value through the Number conversion via a
single readContract call, and neither issues any write operation. -/
theorem contract_read_hooks_pass_through (raw : Donation) (rawTotal : Int)
    (id : Int) :
    (getDonation raw id).1.targetAmount = jsBigInt raw.targetAmount ∧
    (getDonation raw id).1.totalDonated = jsBigInt raw.totalDonated ∧
    (getDonation raw id).1.timestamp = jsBigInt raw.timestamp ∧
    (getDonation raw id).1.creator = raw.creator ∧
    (getDonation raw id).1.description = raw.description ∧
    (getDonation raw id).2 = [ClientOp.readContract "getDonation" [id]] ∧
    (∀ op ∈ (getDonation raw id).2, op.isWrite = false) ∧
    (getTotalDonations rawTotal).1 = jsNumber rawTotal ∧
    (getTotalDonations rawTotal).2 = [ClientOp.readContract "totalDonations" []] ∧
    (∀ op ∈ (getTotalDonations rawTotal).2, op.isWrite = false) := by
  refine ⟨rfl, rfl, rfl, rfl, rfl, rfl, ?w1, rfl, rfl, ?w2⟩
  case w1 =>
    intro op hop
    have h := List.mem_singleton.mp hop
    rw [h]
    rfl
  case w2 =>
    intro op hop
    have h := List.mem_singleton.mp hop
    rw [h]
    rfl

/-- Witness for C7: the single operation a concrete getDonation run
issues is not a write. -/
theorem contract_read_hooks_pass_through_witness :
    ClientOp.isWrite (ClientOp.readContract "getDonation" [7]) = false := by
  refine (contract_read_hooks_pass_through ⟨1, 2, "cr", 3, "ds"⟩ 4 7).2.2.2.2.2.2.1
    (ClientOp.readContract "getDonation" [7]) ?mem
  simp [getDonation]

lemma fetchLoop_eq (donationResp : Nat → Except String Donation) :
    ∀ n i, fetchLoop donationResp i n
      = (List.range' i n).filterMap
          (fun j => match donationResp j with
                    | Except.ok d => some (j, d)
                    | Except.error _ => none) := by
  intro n
  induction n with
  | zero => intro i; simp [fetchLoop]
  | succ n ih =>
    intro i
    rcases h : donationResp i with e | d
    · simp [fetchLoop, h, List.range'_succ, ih (i+1)]
    · simp [fetchLoop, h, List.range'_succ, ih (i+1)]

/-- Claim C9: DonationList.loadDonations fetches donation ids 0 through
total-1 in ascending order, skips any individual id whose getDonation
call fails while continuing with the remaining ids, stores the
successfully loaded entries in reversed order (highest id first), sets
the list-level error state only when getTotalDonations itself fails, and
resets isLoadingDonations to false on every exit path. -/
theorem loadDonations_spec (totalResp : Except String Nat)
    (donationResp : Nat → Except String Donation) :
    (loadDonations totalResp donationResp).isLoadingDonations = false ∧
    (∀ e, totalResp = Except.error e →
        (loadDonations totalResp donationResp).error = e ∧
        (loadDonations totalResp donationResp).queried = [] ∧
        (loadDonations totalResp donationResp).stored = none) ∧
    (∀ total, totalResp = Except.ok total →
        (loadDonations totalResp donationResp).error = "" ∧
        (loadDonations totalResp donationResp).queried = List.range total ∧
        (loadDonations totalResp donationResp).stored
          = some (((List.range total).filterMap
              (fun j => match donationResp j with
                        | Except.ok d => some (j, d)
                        | Except.error _ => none)).reverse)) := by
  rcases totalResp with e0 | total0
  · refine ⟨rfl, ?_, ?_⟩
    · intro e he
      injection he with h
      refine ⟨?_, rfl, rfl⟩
      simp only [loadDonations]
      exact h
    · intro total ht
      simp at ht
  · refine ⟨rfl, ?_, ?_⟩
    · intro e he
      simp at he
    · intro total ht
      injection ht with h
      refine ⟨rfl, ?_, ?_⟩
      · simp only [loadDonations]
        rw [h]
      · simp only [loadDonations]
        rw [← h, fetchLoop_eq donationResp total0 0, List.range_eq_range']

/-- Witness for C9: with total 3 and the fetch of id 1 failing, the
stored list is the two successful entries with the highest id first and
the list-level error state stays clear. -/
theorem loadDonations_spec_witness :
    (loadDonations (Except.ok 3)
        (fun j => if j = 1 then Except.error "boom"
                  else Except.ok ⟨100, 0, "cr", 7, "ds"⟩)).stored
      = some [(2, ⟨100, 0, "cr", 7, "ds"⟩), (0, ⟨100, 0, "cr", 7, "ds"⟩)] ∧
    (loadDonations (Except.ok 3)
        (fun j => if j = 1 then Except.error "boom"
                  else Except.ok ⟨100, 0, "cr", 7, "ds"⟩)).error = "" := by
  have h := (loadDonations_spec (Except.ok 3)
      (fun j => if j = 1 then Except.error "boom"
                else Except.ok ⟨100, 0, "cr", 7, "ds"⟩)).2.2 3 rfl
  refine ⟨?st, h.1⟩
  rw [h.2.2]
  decide

lemma cardProgress_finite (d t : ℚ) (ht : t ≠ 0) :
    cardProgress (JsNum.num d) (JsNum.num t) = JsNum.num (min (d / t * 100) 100) := by
  simp [cardProgress, jsDiv, jsMul, jsMin, ht]

/-- Claim C10: in DonationCard the progress value is
Math.min((totalDonated / targetAmount) * 100, 100), so for every
donation with a positive target the rendered progress value is a finite
number never exceeding 100; the division by targetAmount is unguarded,
so a donation with targetAmount = 0 and totalDonated > 0 yields exactly
100, while targetAmount = 0 and totalDonated = 0 yields NaN. -/
theorem donationCard_progress (don : Donation) :
    (0 < don.targetAmount →
        ∃ p, progressOf don = JsNum.num p ∧ p ≤ 100) ∧
    (don.targetAmount = 0 → 0 < don.totalDonated →
        progressOf don = JsNum.num 100) ∧
    (don.targetAmount = 0 → don.totalDonated = 0 →
        progressOf don = JsNum.nan) := by
  refine ⟨?_, ?_, ?_⟩
  · intro hpos
    have ht : (0 : ℚ) < (don.targetAmount : ℚ) / (10 : ℚ)^18 := by
      apply div_pos
      · exact_mod_cast hpos
      · positivity
    rw [progressOf, cardValues,
      cardProgress_finite ((don.totalDonated : ℚ) / (10 : ℚ)^18)
        ((don.targetAmount : ℚ) / (10 : ℚ)^18) (ne_of_gt ht)]
    exact ⟨_, rfl, min_le_right _ _⟩
  · intro hz hpos
    have hd : (0 : ℚ) < (don.totalDonated : ℚ) / (10 : ℚ)^18 := by
      apply div_pos
      · exact_mod_cast hpos
      · positivity
    rw [progressOf, cardValues]
    simp [cardProgress, jsDiv, jsMul, jsMin, hz, ne_of_gt hd, hd]
  · intro hz hz2
    rw [progressOf, cardValues]
    simp [cardProgress, jsDiv, jsMul, jsMin, hz, hz2]

/-- Witness for C10: a donation with target 2 ETH and 1 ETH donated gets
a finite progress of at most 100, and a donation with a zero target and
nothing donated renders NaN. -/
theorem donationCard_progress_witness :
    (∃ p, progressOf ⟨2 * 10^18, 10^18, "cr", 0, "ds"⟩ = JsNum.num p ∧ p ≤ 100) ∧
    progressOf ⟨0, 0, "cr", 0, "ds"⟩ = JsNum.nan :=
  ⟨(donationCard_progress ⟨2 * 10^18, 10^18, "cr", 0, "ds"⟩).1 (by norm_num),
   (donationCard_progress ⟨0, 0, "cr", 0, "ds"⟩).2.2 rfl rfl⟩
